import Mathlib

/-!
Verification of the alert-evaluation and dispatch engine in
`src/utils/langsmith_monitor.py` (class `LangSmithAlertHandler`).

The embedding models Python values flowing through the handler with an
explicit universe `PyVal`, Python truthiness with `truthy`, the `or`
operator with `pyOr`, `getattr(v, name, default)` with `getattrD`, and
`dict.get` with `dictGet`.  Fallible Python control flow (a `TypeError`
raised by iterating a non-iterable, an SMTP exception escaping
`_send_email`) is modelled with an explicit exception component.  Clock
readings are rationals passed in explicitly (`time.perf_counter()` is the
`now` argument of each event).
-/

/-- Universe of Python values a response object may contain: `None`,
integers, strings, lists, dicts with string keys, and plain objects seen
only through their attributes. -/
inductive PyVal where
  | none : PyVal
  | int : Int → PyVal
  | str : String → PyVal
  | list : List PyVal → PyVal
  | dict : List (String × PyVal) → PyVal
  | obj : List (String × PyVal) → PyVal

/-- Python truthiness: `None`, `0`, `""`, `[]`, `{}` are falsy; a plain
object is always truthy. -/
def truthy : PyVal → Bool
  | .none => false
  | .int n => n != 0
  | .str s => s != ""
  | .list l => !l.isEmpty
  | .dict d => !d.isEmpty
  | .obj _ => true

/-- Python `a or b`. -/
def pyOr (a b : PyVal) : PyVal := if truthy a then a else b

/-- First-match association-list lookup (Python dict keys are unique, so
first match is the match). -/
def assocFind {α : Type} (m : List (String × α)) (k : String) : Option α :=
  match m with
  | [] => Option.none
  | (k', v) :: rest => if k' = k then some v else assocFind rest k

/-- `getattr(v, name, default)`: attribute lookup on an object, the
default everywhere else (none of the attribute names used by the monitor
exist on `None`, numbers, strings, lists or dicts). -/
def getattrD (v : PyVal) (name : String) (dflt : PyVal) : PyVal :=
  match v with
  | .obj attrs =>
      match assocFind attrs name with
      | some x => x
      | Option.none => dflt
  | _ => dflt

/-- `d.get(k)`: the value under `k`, `None` when absent. -/
def dictGet (d : List (String × PyVal)) (k : String) : PyVal :=
  match assocFind d k with
  | some v => v
  | Option.none => PyVal.none

/-- Python iteration `for x in v`: lists iterate their elements, strings
their characters, dicts their keys; `None`, numbers and plain objects
raise `TypeError`. -/
def pyIter : PyVal → Except String (List PyVal)
  | .list l => .ok l
  | .str s => .ok (s.data.map fun c => PyVal.str (String.mk [c]))
  | .dict d => .ok (d.map fun kv => PyVal.str kv.1)
  | _ => .error "TypeError: object is not iterable"

/-- Strategy 1 of `_extract_total_tokens` (lines 85-90):
`llm_output = getattr(response, "llm_output", None) or {}`, then
`usage = llm_output.get("token_usage") or llm_output.get("usage") or {}`
and `usage.get("total_tokens")` accepted only when it is an `int`. -/
def step1_tokens (response : PyVal) : Option Int :=
  let llm_output := pyOr (getattrD response "llm_output" PyVal.none) (PyVal.dict [])
  match llm_output with
  | .dict d =>
      let usage := pyOr (pyOr (dictGet d "token_usage") (dictGet d "usage")) (PyVal.dict [])
      match usage with
      | .dict u =>
          match dictGet u "total_tokens" with
          | .int n => some n
          | _ => Option.none
      | _ => Option.none
  | _ => Option.none

/-- Per-generation lookup in strategy 2 (lines 95-100):
`getattr(generation, "message", None)`, then its `usage_metadata`, then
`total_tokens` accepted only when it is an `int`. -/
def scanGeneration (gen : PyVal) : Option Int :=
  let message := getattrD gen "message" PyVal.none
  let usage_metadata := getattrD message "usage_metadata" PyVal.none
  match usage_metadata with
  | .dict u =>
      match dictGet u "total_tokens" with
      | .int n => some n
      | _ => Option.none
  | _ => Option.none

/-- Inner loop of strategy 2: first hit in a generation group wins. -/
def scanInner : List PyVal → Option Int
  | [] => Option.none
  | gen :: rest =>
      match scanGeneration gen with
      | some n => some n
      | Option.none => scanInner rest

/-- Outer loop of strategy 2: each group is itself iterated (a
non-iterable group raises, but only once the loop reaches it). -/
def scanGroups : List PyVal → Except String (Option Int)
  | [] => .ok Option.none
  | g :: rest =>
      match pyIter g with
      | .error e => .error e
      | .ok inner =>
          match scanInner inner with
          | some n => .ok (some n)
          | Option.none => scanGroups rest

/-- Strategy 2 of `_extract_total_tokens` (lines 92-100):
`generations = getattr(response, "generations", None) or []` and the
nested scan in iteration order. -/
def extract_step2 (response : PyVal) : Except String (Option Int) :=
  let generations := pyOr (getattrD response "generations" PyVal.none) (PyVal.list [])
  match pyIter generations with
  | .error e => .error e
  | .ok groups => scanGroups groups

/-- `_extract_total_tokens` (lines 84-102): strategy 1, then strategy 2,
then `None`. -/
def extract_total_tokens (response : PyVal) : Except String (Option Int) :=
  match step1_tokens response with
  | some n => .ok (some n)
  | Option.none => extract_step2 response

/-- `AlertConfig` (lines 15-28).  Floats are modelled as rationals. -/
structure AlertConfig where
  latency_seconds : ℚ
  token_threshold : Int
  notify_mode : String
  webhook_url : String
  webhook_timeout_seconds : ℚ
  smtp_host : String
  smtp_port : Int
  smtp_username : String
  smtp_password : String
  smtp_from : String
  smtp_to : String
  smtp_use_tls : Bool

/-- The alert payload built by `_build_payload`. -/
structure Payload where
  title : String
  body : String
deriving DecidableEq

/-- Two-digit zero padding for the fractional part. -/
def pad2 (n : ℕ) : String := if n < 10 then "0" ++ toString n else toString n

/-- Round half to even, as Python string formatting rounds. -/
def rne (q : ℚ) : ℤ :=
  let f : ℤ := ⌊q⌋
  if q - f < 1 / 2 then f
  else if 1 / 2 < q - f then f + 1
  else if f % 2 = 0 then f else f + 1

/-- Python `f"{q:.2f}"` on a rational clock difference. -/
def format2 (q : ℚ) : String :=
  if q < 0 then
    let n := (rne (-q * 100)).toNat
    "-" ++ toString (n / 100) ++ "." ++ pad2 (n % 100)
  else
    let n := (rne (q * 100)).toNat
    toString (n / 100) ++ "." ++ pad2 (n % 100)

/-- `_build_payload` (lines 119-132): title, then the body lines
accumulated in order and joined by a newline. -/
def build_payload (reason : String) (duration : Option ℚ) (total_tokens : Option Int) : Payload :=
  let title := "LangSmith alert: " ++ reason
  let lines : List String := ["Reason: " ++ reason]
  let lines :=
    match duration with
    | some d => lines ++ ["Latency: " ++ format2 d ++ "s"]
    | Option.none => lines
  let lines :=
    match total_tokens with
    | some t => lines ++ ["Total tokens: " ++ toString t]
    | Option.none => lines
  { title := title, body := String.intercalate "\n" lines }

/-- The distinct `logger.warning` calls of the module, one constructor per
format string: "LangSmith alert: %s" (line 105), "Webhook URL not
configured; skipping webhook alert." (line 157), "Webhook alert failed:
%s" (line 172), "SMTP not configured; skipping email alert." (line 137). -/
inductive LogMsg where
  | alertLead (reason : String)
  | webhookNotConfigured
  | webhookFailed (detail : String)
  | smtpNotConfigured
deriving DecidableEq

/-- The log message text each constructor stands for. -/
def LogMsg.render : LogMsg → String
  | .alertLead r => "LangSmith alert: " ++ r
  | .webhookNotConfigured => "Webhook URL not configured; skipping webhook alert."
  | .webhookFailed d => "Webhook alert failed: " ++ d
  | .smtpNotConfigured => "SMTP not configured; skipping email alert."

/-- Observable side effects of the handler: log lines, the attempted HTTP
POST of `_send_webhook` (url, JSON title and body fields, timeout), and
the SMTP transaction of `_send_email` (host, port, TLS upgrade, optional
login, subject, sender, recipient, plain-text body). -/
inductive Effect where
  | log (msg : LogMsg)
  | httpPost (url : String) (title : String) (body : String) (timeout : ℚ)
  | smtpSession (host : String) (port : Int) (useTls : Bool)
      (login : Option (String × String))
      (subject sender recipient body : String)
deriving DecidableEq

/-- Outcome of `requests.post` followed by `raise_for_status`: an HTTP
status code, or a transport-level `RequestException` carrying its
description. -/
inductive WebhookResult where
  | status (code : ℕ)
  | transportError (msg : String)

/-- Outcome of the whole SMTP transaction (connect, optional STARTTLS,
optional login, send): success, or an exception carrying its
description. -/
inductive SmtpResult where
  | success
  | failure (msg : String)

/-- The outbound transports, supplied by the environment: what the
webhook POST returns for given arguments and what the SMTP transaction
does for given arguments. -/
structure NetEnv where
  webhook : String → String → String → ℚ → WebhookResult
  smtp : String → Int → Bool → Option (String × String) → String → String → String → String → SmtpResult

/-- Result of a channel call: the effects it produced, and the exception
it let escape, if any. -/
structure ChanOut where
  effects : List Effect
  exc : Option String

/-- Result of a handler entry point: the timer map it leaves behind, the
effects produced, and the exception it let escape, if any. -/
structure HandlerOutcome where
  start_times : List (String × ℚ)
  effects : List Effect
  exc : Option String

/-- `requests.raise_for_status` raises exactly for 4xx and 5xx codes; the
text of the raised `HTTPError` is transport-defined, modelled
representatively. -/
def raiseForStatusMsg (code : ℕ) (url : String) : String :=
  toString code ++ " Error for url: " ++ url

/-- `_send_webhook` (lines 155-172): empty URL is a logged no-op;
otherwise one POST, with any `RequestException` (transport failure or
`raise_for_status` on a 4xx/5xx code) caught and logged. -/
def send_webhook (cfg : AlertConfig) (payload : Payload) (env : NetEnv) : ChanOut :=
  if cfg.webhook_url = "" then
    { effects := [.log .webhookNotConfigured], exc := Option.none }
  else
    let post := Effect.httpPost cfg.webhook_url payload.title payload.body cfg.webhook_timeout_seconds
    match env.webhook cfg.webhook_url payload.title payload.body cfg.webhook_timeout_seconds with
    | .transportError msg =>
        { effects := [post, .log (.webhookFailed msg)], exc := Option.none }
    | .status code =>
        if 400 ≤ code ∧ code < 600 then
          { effects := [post, .log (.webhookFailed (raiseForStatusMsg code cfg.webhook_url))],
            exc := Option.none }
        else
          { effects := [post], exc := Option.none }

/-- `_smtp_configured` (lines 134-139) without its log line:
`all([smtp_host, smtp_from, smtp_to])` on strings is non-emptiness. -/
def smtp_configured (cfg : AlertConfig) : Bool :=
  cfg.smtp_host != "" && cfg.smtp_from != "" && cfg.smtp_to != ""

/-- `_send_email` (lines 141-153): builds the message and runs the SMTP
transaction; login happens only when both username and password are
non-empty; no exception is caught, so a failing transaction escapes. -/
def send_email (cfg : AlertConfig) (subject : String) (body : String) (env : NetEnv) : ChanOut :=
  let login :=
    if cfg.smtp_username != "" && cfg.smtp_password != "" then
      some (cfg.smtp_username, cfg.smtp_password)
    else Option.none
  match env.smtp cfg.smtp_host cfg.smtp_port cfg.smtp_use_tls login subject cfg.smtp_from cfg.smtp_to body with
  | .success =>
      { effects := [.smtpSession cfg.smtp_host cfg.smtp_port cfg.smtp_use_tls login subject cfg.smtp_from cfg.smtp_to body],
        exc := Option.none }
  | .failure msg => { effects := [], exc := some msg }

/-- `_alert` (lines 104-117): the lead warning always fires, then the
payload is built and routed by `notify_mode`; `smtp` mode logs and skips
when unconfigured (the log line lives inside `_smtp_configured`). -/
def alert (cfg : AlertConfig) (reason : String) (duration : Option ℚ) (total_tokens : Option Int) (env : NetEnv) : ChanOut :=
  let lead := Effect.log (.alertLead reason)
  let payload := build_payload reason duration total_tokens
  if cfg.notify_mode = "webhook" then
    let o := send_webhook cfg payload env
    { effects := lead :: o.effects, exc := o.exc }
  else if cfg.notify_mode = "smtp" then
    if smtp_configured cfg then
      let o := send_email cfg payload.title payload.body env
      { effects := lead :: o.effects, exc := o.exc }
    else
      { effects := [lead, .log .smtpNotConfigured], exc := Option.none }
  else
    { effects := [lead], exc := Option.none }

/-- A `run_id` keyword argument value: the handler only ever tests its
truthiness and takes its `str()`; opaque run tokens (UUIDs) are strings
here. -/
inductive RunIdVal where
  | vnone
  | vint (n : Int)
  | vstr (s : String)
deriving DecidableEq

/-- Truthiness of a run id value. -/
def ridTruthy : RunIdVal → Bool
  | .vnone => false
  | .vint n => n != 0
  | .vstr s => s != ""

/-- Python `str()` of a run id value. -/
def ridStr : RunIdVal → String
  | .vnone => "None"
  | .vint n => toString n
  | .vstr s => s

/-- The key the end/error handlers use: `str(kwargs.get("run_id", ""))`
(lines 59, 70, 75); an absent keyword yields the empty string. -/
def runIdKey : Option RunIdVal → String
  | Option.none => ""
  | some v => ridStr v

/-- Python dict assignment `m[k] = v`: overwrite in place, append when
new. -/
def assocInsert {α : Type} (m : List (String × α)) (k : String) (v : α) : List (String × α) :=
  match m with
  | [] => [(k, v)]
  | (k', v') :: rest => if k' = k then (k, v) :: rest else (k', v') :: assocInsert rest k v

/-- Python `m.pop(k)`'s removal of the entry. -/
def assocRemove {α : Type} (m : List (String × α)) (k : String) : List (String × α) :=
  match m with
  | [] => []
  | (k', v') :: rest => if k' = k then rest else (k', v') :: assocRemove rest k

/-- `_pop_duration` (lines 79-82): when the key is present, the entry is
removed and `now` minus the stored start is returned; otherwise the map
is untouched and no duration is produced. -/
def pop_duration (m : List (String × ℚ)) (now : ℚ) (run_id : String) : Option ℚ × List (String × ℚ) :=
  match assocFind m run_id with
  | some start => (some (now - start), assocRemove m run_id)
  | Option.none => (Option.none, m)

/-- `on_llm_start` (lines 53-56): `kwargs.get("run_id")` recorded under
`str(run_id)` only when truthy.  It logs nothing and cannot raise. -/
def on_llm_start (m : List (String × ℚ)) (now : ℚ) (run_id : Option RunIdVal) : HandlerOutcome :=
  match run_id with
  | some v =>
      if ridTruthy v then
        { start_times := assocInsert m (ridStr v) now, effects := [], exc := Option.none }
      else
        { start_times := m, effects := [], exc := Option.none }
  | Option.none => { start_times := m, effects := [], exc := Option.none }

/-- `on_llm_end` (lines 58-67): pop the duration, extract the tokens,
then the latency check and the token check fire independently, in that
order; an exception from extraction or from a dispatch propagates, after
the side effects already produced. -/
def on_llm_end (cfg : AlertConfig) (m : List (String × ℚ)) (now : ℚ) (response : PyVal)
    (run_id : Option RunIdVal) (env : NetEnv) : HandlerOutcome :=
  let rid := runIdKey run_id
  let pd := pop_duration m now rid
  let duration := pd.1
  let m2 := pd.2
  match extract_total_tokens response with
  | .error e => { start_times := m2, effects := [], exc := some e }
  | .ok total_tokens =>
      let o1 : ChanOut :=
        match duration with
        | some d =>
            if cfg.latency_seconds ≤ d then
              alert cfg "Latency threshold exceeded" duration total_tokens env
            else { effects := [], exc := Option.none }
        | Option.none => { effects := [], exc := Option.none }
      match o1.exc with
      | some e => { start_times := m2, effects := o1.effects, exc := some e }
      | Option.none =>
          let o2 : ChanOut :=
            match total_tokens with
            | some t =>
                if cfg.token_threshold ≤ t then
                  alert cfg "Token threshold exceeded" duration total_tokens env
                else { effects := [], exc := Option.none }
            | Option.none => { effects := [], exc := Option.none }
          { start_times := m2, effects := o1.effects ++ o2.effects, exc := o2.exc }

/-- `on_llm_error` (lines 69-72): pop the duration, then one
unconditional alert with reason `"LLM error: " + str(error)` and no token
count. -/
def on_llm_error (cfg : AlertConfig) (m : List (String × ℚ)) (now : ℚ) (error : String)
    (run_id : Option RunIdVal) (env : NetEnv) : HandlerOutcome :=
  let pd := pop_duration m now (runIdKey run_id)
  let o := alert cfg ("LLM error: " ++ error) pd.1 Option.none env
  { start_times := pd.2, effects := o.effects, exc := o.exc }

/-- `on_chain_error` (lines 74-77): same as `on_llm_error` with the
`"Chain error: "` reason. -/
def on_chain_error (cfg : AlertConfig) (m : List (String × ℚ)) (now : ℚ) (error : String)
    (run_id : Option RunIdVal) (env : NetEnv) : HandlerOutcome :=
  let pd := pop_duration m now (runIdKey run_id)
  let o := alert cfg ("Chain error: " ++ error) pd.1 Option.none env
  { start_times := pd.2, effects := o.effects, exc := o.exc }

/-- The reasons of the alert dispatches in a trace, in order: each
`_alert` call contributes exactly one lead warning. -/
def alertMarkers (effs : List Effect) : List String :=
  effs.filterMap fun e =>
    match e with
    | .log (.alertLead r) => some r
    | _ => Option.none

/-- The bodies actually handed to an outbound channel in a trace. -/
def postedBodies (effs : List Effect) : List String :=
  effs.filterMap fun e =>
    match e with
    | .httpPost _ _ body _ => some body
    | .smtpSession _ _ _ _ _ _ _ body => some body
    | _ => Option.none

/-- Number of HTTP POST attempts in a trace. -/
def countPosts (effs : List Effect) : ℕ :=
  effs.countP fun e =>
    match e with
    | .httpPost _ _ _ _ => true
    | _ => false

/-- Whether the webhook call failed: a transport error, or a status that
`raise_for_status` rejects. -/
def webhook_failure : WebhookResult → Bool
  | .transportError _ => true
  | .status code => decide (400 ≤ code ∧ code < 600)

/-- The latency gate of line 63: a duration is available and meets the
threshold. -/
def latency_fires (cfg : AlertConfig) (duration : Option ℚ) : Bool :=
  match duration with
  | some d => cfg.latency_seconds ≤ d
  | Option.none => false

/-- The token gate of line 66: a total-token count is available and meets
the threshold. -/
def tokens_fire (cfg : AlertConfig) (total_tokens : Option Int) : Bool :=
  match total_tokens with
  | some t => cfg.token_threshold ≤ t
  | Option.none => false

/-- Step 1 as the specification words it for the refinement comparison:
within the output-metadata dict, the token-usage sub-field is consulted,
then the usage sub-field, the first one PRESENT winning. -/
def step1_firstPresent (response : PyVal) : Option Int :=
  match getattrD response "llm_output" PyVal.none with
  | .dict d =>
      let chosen : Option PyVal :=
        match assocFind d "token_usage" with
        | some tu => some tu
        | Option.none => assocFind d "usage"
      match chosen with
      | some (.dict u) =>
          match dictGet u "total_tokens" with
          | .int n => some n
          | _ => Option.none
      | _ => Option.none
  | _ => Option.none

/-- Token extraction following the specification's words (first present
sub-field wins in step 1, then the generation scan): the refinement
comparison definition for the strategy-order claim. -/
def extract_firstPresent (response : PyVal) : Except String (Option Int) :=
  match step1_firstPresent response with
  | some n => .ok (some n)
  | Option.none => extract_step2 response

/-- Step 1 as amended: the token-usage sub-field is consulted, then the
usage sub-field, the first TRUTHY (present and non-empty) one winning. -/
def step1_truthy (response : PyVal) : Option Int :=
  match getattrD response "llm_output" PyVal.none with
  | .dict d =>
      let tu := dictGet d "token_usage"
      let chosen := if truthy tu then tu else dictGet d "usage"
      match chosen with
      | .dict u =>
          match dictGet u "total_tokens" with
          | .int n => some n
          | _ => Option.none
      | _ => Option.none
  | _ => Option.none

/-- Token extraction following the amended strategy description: first
truthy sub-field wins in step 1, the generation scan runs only when step
1 yields nothing. -/
def extract_truthyOrder (response : PyVal) : Except String (Option Int) :=
  match step1_truthy response with
  | some n => .ok (some n)
  | Option.none => extract_step2 response

mutual

/-- Every integer occurring anywhere inside the value is nonnegative. -/
def allIntsNonneg : PyVal → Bool
  | .none => true
  | .int n => 0 ≤ n
  | .str _ => true
  | .list l => allIntsNonnegList l
  | .dict d => allIntsNonnegPairs d
  | .obj a => allIntsNonnegPairs a

/-- `allIntsNonneg` over a list of values. -/
def allIntsNonnegList : List PyVal → Bool
  | [] => true
  | v :: vs => allIntsNonneg v && allIntsNonnegList vs

/-- `allIntsNonneg` over the values of an association list. -/
def allIntsNonnegPairs : List (String × PyVal) → Bool
  | [] => true
  | kv :: vs => allIntsNonneg kv.2 && allIntsNonnegPairs vs

end

/-- The `run_id` keyword is absent or falsy (the guard of line 55
rejects it). -/
def ridFalsy : Option RunIdVal → Bool
  | some v => !ridTruthy v
  | Option.none => true

/-- A sample log-mode configuration for concrete instantiations. -/
def cfgLog : AlertConfig :=
  { latency_seconds := 1, token_threshold := 50, notify_mode := "log", webhook_url := "",
    webhook_timeout_seconds := 5, smtp_host := "", smtp_port := 587, smtp_username := "",
    smtp_password := "", smtp_from := "", smtp_to := "", smtp_use_tls := true }

/-- A sample webhook-mode configuration with a configured URL. -/
def cfgWebhook : AlertConfig :=
  { latency_seconds := 1, token_threshold := 50, notify_mode := "webhook",
    webhook_url := "http://x", webhook_timeout_seconds := 5, smtp_host := "",
    smtp_port := 587, smtp_username := "", smtp_password := "", smtp_from := "",
    smtp_to := "", smtp_use_tls := true }

/-- A sample smtp-mode configuration with host, sender and recipient
set. -/
def cfgSmtp : AlertConfig :=
  { latency_seconds := 1, token_threshold := 50, notify_mode := "smtp", webhook_url := "",
    webhook_timeout_seconds := 5, smtp_host := "smtp.example.com", smtp_port := 587,
    smtp_username := "", smtp_password := "", smtp_from := "alerts@example.com",
    smtp_to := "oncall@example.com", smtp_use_tls := true }

/-- An environment where every outbound call succeeds. -/
def envOk : NetEnv :=
  { webhook := fun _ _ _ _ => WebhookResult.status 200,
    smtp := fun _ _ _ _ _ _ _ _ => SmtpResult.success }

/-- An environment where the webhook POST comes back with HTTP 500. -/
def envHttp500 : NetEnv :=
  { webhook := fun _ _ _ _ => WebhookResult.status 500,
    smtp := fun _ _ _ _ _ _ _ _ => SmtpResult.success }

/-- An environment where the SMTP transaction raises. -/
def envSmtpFail : NetEnv :=
  { webhook := fun _ _ _ _ => WebhookResult.status 200,
    smtp := fun _ _ _ _ _ _ _ _ => SmtpResult.failure "SMTPServerDisconnected" }

/-- An environment where the webhook POST comes back with a final HTTP
303 status: not a success, yet not rejected by `raise_for_status`. -/
def env303 : NetEnv :=
  { webhook := fun _ _ _ _ => WebhookResult.status 303,
    smtp := fun _ _ _ _ _ _ _ _ => SmtpResult.success }

lemma alertMarkers_append (a b : List Effect) :
    alertMarkers (a ++ b) = alertMarkers a ++ alertMarkers b := by
  simp [alertMarkers]

lemma alertMarkers_nil : alertMarkers [] = [] := rfl

lemma alertMarkers_cons_lead (r : String) (effs : List Effect) :
    alertMarkers (Effect.log (LogMsg.alertLead r) :: effs) = r :: alertMarkers effs := by
  simp [alertMarkers]

lemma alertMarkers_send_webhook (cfg : AlertConfig) (p : Payload) (env : NetEnv) :
    alertMarkers (send_webhook cfg p env).effects = [] := by
  unfold send_webhook
  dsimp only
  repeat' split
  all_goals simp [alertMarkers]

lemma alertMarkers_send_email (cfg : AlertConfig) (s b : String) (env : NetEnv) :
    alertMarkers (send_email cfg s b env).effects = [] := by
  unfold send_email
  dsimp only
  repeat' split
  all_goals simp [alertMarkers]

lemma alertMarkers_alert (cfg : AlertConfig) (r : String) (d : Option ℚ) (t : Option Int)
    (env : NetEnv) : alertMarkers (alert cfg r d t env).effects = [r] := by
  unfold alert
  dsimp only
  split_ifs with h1 h2 h3
  · rw [alertMarkers_cons_lead, alertMarkers_send_webhook]
  · rw [alertMarkers_cons_lead, alertMarkers_send_email]
  · simp [alertMarkers]
  · simp [alertMarkers]

lemma postedBodies_send_webhook (cfg : AlertConfig) (p : Payload) (env : NetEnv) :
    ∀ b ∈ postedBodies (send_webhook cfg p env).effects, b = p.body := by
  unfold send_webhook
  dsimp only
  repeat' split
  all_goals simp [postedBodies]

lemma postedBodies_send_email (cfg : AlertConfig) (s b : String) (env : NetEnv) :
    ∀ x ∈ postedBodies (send_email cfg s b env).effects, x = b := by
  unfold send_email
  dsimp only
  repeat' split
  all_goals simp [postedBodies]

lemma postedBodies_alert (cfg : AlertConfig) (r : String) (d : Option ℚ) (t : Option Int)
    (env : NetEnv) :
    ∀ b ∈ postedBodies (alert cfg r d t env).effects, b = (build_payload r d t).body := by
  unfold alert
  dsimp only
  split_ifs with h1 h2 h3
  · intro b hb
    simp only [postedBodies, List.filterMap_cons] at hb
    exact postedBodies_send_webhook cfg (build_payload r d t) env b hb
  · intro b hb
    simp only [postedBodies, List.filterMap_cons] at hb
    exact postedBodies_send_email cfg (build_payload r d t).title (build_payload r d t).body env b hb
  · simp [postedBodies]
  · simp [postedBodies]

lemma send_webhook_exc (cfg : AlertConfig) (p : Payload) (env : NetEnv) :
    (send_webhook cfg p env).exc = Option.none := by
  unfold send_webhook
  dsimp only
  repeat' split
  all_goals rfl

lemma send_email_exc_of_success (cfg : AlertConfig) (s b : String) (env : NetEnv)
    (hs : ∀ h p tls lg su fr rcpt bo, env.smtp h p tls lg su fr rcpt bo = SmtpResult.success) :
    (send_email cfg s b env).exc = Option.none := by
  unfold send_email
  dsimp only
  rw [hs]

lemma alert_exc_webhook (cfg : AlertConfig) (r : String) (d : Option ℚ) (t : Option Int)
    (env : NetEnv) (h : cfg.notify_mode = "webhook") :
    (alert cfg r d t env).exc = Option.none := by
  unfold alert
  dsimp only
  rw [if_pos h]
  exact send_webhook_exc cfg (build_payload r d t) env

lemma alert_exc_none (cfg : AlertConfig) (r : String) (d : Option ℚ) (t : Option Int)
    (env : NetEnv)
    (hs : cfg.notify_mode = "smtp" → smtp_configured cfg = true →
      ∀ h p tls lg su fr rcpt bo, env.smtp h p tls lg su fr rcpt bo = SmtpResult.success) :
    (alert cfg r d t env).exc = Option.none := by
  unfold alert
  dsimp only
  split_ifs with h1 h2 h3
  · exact send_webhook_exc cfg (build_payload r d t) env
  · exact send_email_exc_of_success cfg _ _ env (hs h2 h3)
  · rfl
  · rfl

lemma assocFind_eq_none_iff {α : Type} (m : List (String × α)) (k : String) :
    assocFind m k = Option.none ↔ k ∉ m.map Prod.fst := by
  induction m with
  | nil => simp [assocFind]
  | cons kv rest ih =>
      obtain ⟨k', v⟩ := kv
      by_cases h : k' = k
      · subst h; simp [assocFind]
      · simp only [assocFind, if_neg h, List.map_cons, List.mem_cons, ih]
        constructor
        · intro hn
          rintro (he | hm)
          · exact h he.symm
          · exact hn hm
        · intro hn hm
          exact hn (Or.inr hm)

lemma assocFind_assocRemove {α : Type} (m : List (String × α)) (k : String)
    (h : (m.map Prod.fst).Nodup) : assocFind (assocRemove m k) k = Option.none := by
  induction m with
  | nil => simp [assocRemove, assocFind]
  | cons kv rest ih =>
      obtain ⟨k', v⟩ := kv
      simp only [List.map_cons, List.nodup_cons] at h
      by_cases hk : k' = k
      · subst hk
        simp only [assocRemove, if_pos rfl]
        exact (assocFind_eq_none_iff rest k').mpr h.1
      · simp only [assocRemove, if_neg hk, assocFind, if_neg hk]
        exact ih h.2

lemma on_llm_end_exc_none (cfg : AlertConfig) (m : List (String × ℚ)) (now : ℚ)
    (resp : PyVal) (rid : Option RunIdVal) (env : NetEnv) (tt : Option Int)
    (hx : extract_total_tokens resp = .ok tt)
    (hA : ∀ r d t, (alert cfg r d t env).exc = Option.none) :
    (on_llm_end cfg m now resp rid env).exc = Option.none := by
  unfold on_llm_end
  rw [hx]
  dsimp only
  repeat' split
  all_goals simp_all [hA]

lemma on_llm_end_effects (cfg : AlertConfig) (m : List (String × ℚ)) (now : ℚ)
    (resp : PyVal) (rid : Option RunIdVal) (env : NetEnv) (tt : Option Int)
    (hx : extract_total_tokens resp = .ok tt)
    (hexc : (on_llm_end cfg m now resp rid env).exc = Option.none) :
    (on_llm_end cfg m now resp rid env).effects =
      (if latency_fires cfg (pop_duration m now (runIdKey rid)).1 then
        (alert cfg "Latency threshold exceeded" (pop_duration m now (runIdKey rid)).1 tt env).effects
      else []) ++
      (if tokens_fire cfg tt then
        (alert cfg "Token threshold exceeded" (pop_duration m now (runIdKey rid)).1 tt env).effects
      else []) := by
  unfold on_llm_end at hexc ⊢
  rw [hx] at hexc ⊢
  dsimp only at hexc ⊢
  cases hd : (pop_duration m now (runIdKey rid)).1 with
  | none =>
      simp only [hd] at hexc ⊢
      cases tt with
      | none => simp [latency_fires, tokens_fire]
      | some t =>
          by_cases ht : cfg.token_threshold ≤ t
          · simp [latency_fires, tokens_fire, ht]
          · simp [latency_fires, tokens_fire, ht]
  | some dv =>
      simp only [hd] at hexc ⊢
      by_cases hl : cfg.latency_seconds ≤ dv
      · rw [if_pos hl] at hexc ⊢
        cases ho1 : (alert cfg "Latency threshold exceeded" (some dv) tt env).exc with
        | some e =>
            rw [ho1] at hexc
            dsimp only at hexc
            exact Option.noConfusion hexc
        | none =>
            rw [ho1] at hexc
            dsimp only at hexc ⊢
            cases tt with
            | none => simp [latency_fires, tokens_fire, hl]
            | some t =>
                by_cases ht : cfg.token_threshold ≤ t
                · simp [latency_fires, tokens_fire, hl, ht]
                · simp [latency_fires, tokens_fire, hl, ht]
      · rw [if_neg hl] at hexc ⊢
        dsimp only at hexc ⊢
        cases tt with
        | none => simp [latency_fires, tokens_fire, hl]
        | some t =>
            by_cases ht : cfg.token_threshold ≤ t
            · simp [latency_fires, tokens_fire, hl, ht]
            · simp [latency_fires, tokens_fire, hl, ht]

/-- Claim C9: for every reason, optional elapsed duration and optional
token count, `_build_payload` produces the title
`"LangSmith alert: " + reason` and a body that is the newline-join (no
trailing newline) of, in order, the reason line, then the 2-decimal
latency line only when elapsed is present, then the token line only when
the count is present. -/
theorem c9_build_payload (reason : String) (d : Option ℚ) (t : Option Int) :
    build_payload reason d t =
      { title := "LangSmith alert: " ++ reason,
        body := String.intercalate "\n"
          (("Reason: " ++ reason) ::
            ((d.map fun v => "Latency: " ++ format2 v ++ "s").toList ++
             (t.map fun n => "Total tokens: " ++ toString n).toList)) } := by
  cases d <;> cases t <;> simp [build_payload]

/-- Claim C4: on a map without duplicate keys, `_pop_duration` removes a
present entry and returns now minus the stored start (nonnegative when
the start was recorded no later than now), a second take for the same id
returns `None`, and a missing id returns `None` with the map untouched
and no error. -/
theorem c4_pop_duration (m : List (String × ℚ)) (now now' : ℚ) (k : String) :
    ((m.map Prod.fst).Nodup →
      ∀ start, assocFind m k = some start →
        pop_duration m now k = (some (now - start), assocRemove m k) ∧
        (start ≤ now → ∃ d, (pop_duration m now k).1 = some d ∧ 0 ≤ d) ∧
        pop_duration (pop_duration m now k).2 now' k = (Option.none, (pop_duration m now k).2)) ∧
    (assocFind m k = Option.none → pop_duration m now k = (Option.none, m)) := by
  constructor
  · intro hnd start hf
    have h1 : pop_duration m now k = (some (now - start), assocRemove m k) := by
      unfold pop_duration
      rw [hf]
    refine ⟨h1, ?_, ?_⟩
    · intro hle
      exact ⟨now - start, by rw [h1], sub_nonneg.mpr hle⟩
    · rw [h1]
      unfold pop_duration
      rw [assocFind_assocRemove m k hnd]
  · intro hf
    unfold pop_duration
    rw [hf]

/-- Claim C4 witness at a concrete map: a recorded start at 1 taken at 3
yields duration 2 and removes the entry; the second take yields
nothing. -/
theorem c4_witness :
    pop_duration [("r", (1 : ℚ))] 3 "r" = (some 2, []) ∧
    pop_duration (pop_duration [("r", (1 : ℚ))] 3 "r").2 4 "r" =
      (Option.none, (pop_duration [("r", (1 : ℚ))] 3 "r").2) ∧
    pop_duration [] (5 : ℚ) "missing" = (Option.none, []) := by
  have h := c4_pop_duration [("r", (1 : ℚ))] 3 4 "r"
  have h1 := h.1 (by simp) 1 (by simp [assocFind])
  refine ⟨?_, h1.2.2, (c4_pop_duration [] 5 4 "missing").2 rfl⟩
  rw [h1.1]
  norm_num [assocRemove]

/-- Claim C3: every invocation-error and pipeline-error event dispatches
exactly one alert, for every configuration and environment, with reason
`"LLM error: "` respectively `"Chain error: "` plus the error's
description; every body handed to a channel is built with no token count
and with the elapsed duration popped for the run, and when no start was
recorded the body is exactly the reason line, with no latency line. -/
theorem c3_error_alerts (cfg : AlertConfig) (m : List (String × ℚ)) (now : ℚ) (err : String)
    (rid : Option RunIdVal) (env : NetEnv) :
    alertMarkers (on_llm_error cfg m now err rid env).effects = ["LLM error: " ++ err] ∧
    alertMarkers (on_chain_error cfg m now err rid env).effects = ["Chain error: " ++ err] ∧
    (∀ b ∈ postedBodies (on_llm_error cfg m now err rid env).effects,
      b = (build_payload ("LLM error: " ++ err) (pop_duration m now (runIdKey rid)).1
            Option.none).body) ∧
    (∀ b ∈ postedBodies (on_chain_error cfg m now err rid env).effects,
      b = (build_payload ("Chain error: " ++ err) (pop_duration m now (runIdKey rid)).1
            Option.none).body) ∧
    (assocFind m (runIdKey rid) = Option.none →
      (∀ b ∈ postedBodies (on_llm_error cfg m now err rid env).effects,
        b = "Reason: LLM error: " ++ err) ∧
      (∀ b ∈ postedBodies (on_chain_error cfg m now err rid env).effects,
        b = "Reason: Chain error: " ++ err)) := by
  have hL : (on_llm_error cfg m now err rid env).effects =
      (alert cfg ("LLM error: " ++ err) (pop_duration m now (runIdKey rid)).1 Option.none
        env).effects := rfl
  have hC : (on_chain_error cfg m now err rid env).effects =
      (alert cfg ("Chain error: " ++ err) (pop_duration m now (runIdKey rid)).1 Option.none
        env).effects := rfl
  refine ⟨?_, ?_, ?_, ?_, ?_⟩
  · rw [hL, alertMarkers_alert]
  · rw [hC, alertMarkers_alert]
  · rw [hL]; exact postedBodies_alert cfg _ _ _ env
  · rw [hC]; exact postedBodies_alert cfg _ _ _ env
  · intro hfind
    have hd : (pop_duration m now (runIdKey rid)).1 = Option.none := by
      unfold pop_duration
      rw [hfind]
    constructor
    · intro b hb
      have hbody := postedBodies_alert cfg _ _ _ env b (hL ▸ hb)
      rw [hd] at hbody
      exact hbody
    · intro b hb
      have hbody := postedBodies_alert cfg _ _ _ env b (hC ▸ hb)
      rw [hd] at hbody
      exact hbody

/-- Claim C3 witness: for a webhook-mode configuration, an error event
for a run with no recorded start posts a body that is exactly the reason
line. -/
theorem c3_witness :
    alertMarkers (on_llm_error cfgWebhook [] 0 "boom" Option.none envOk).effects =
      ["LLM error: " ++ "boom"] ∧
    ∀ b ∈ postedBodies (on_llm_error cfgWebhook [] 0 "boom" Option.none envOk).effects,
      b = "Reason: LLM error: " ++ "boom" := by
  have h := c3_error_alerts cfgWebhook [] 0 "boom" Option.none envOk
  exact ⟨h.1, (h.2.2.2.2 rfl).1⟩

/-- Claim C7: webhook dispatch never raises; with an empty URL no POST
is attempted and only the configuration warning is logged; with a
configured URL exactly one POST carrying the payload's title, body and
the configured timeout is attempted (no retry), and any non-success
status or transport failure only adds a warning log line. -/
theorem c7_send_webhook (cfg : AlertConfig) (p : Payload) (r : String) (d : Option ℚ)
    (t : Option Int) (env : NetEnv) :
    (send_webhook cfg p env).exc = Option.none ∧
    (cfg.notify_mode = "webhook" → (alert cfg r d t env).exc = Option.none) ∧
    (cfg.webhook_url = "" →
      (send_webhook cfg p env).effects = [Effect.log LogMsg.webhookNotConfigured] ∧
      countPosts (send_webhook cfg p env).effects = 0) ∧
    (cfg.webhook_url ≠ "" →
      countPosts (send_webhook cfg p env).effects = 1 ∧
      (send_webhook cfg p env).effects.head? =
        some (Effect.httpPost cfg.webhook_url p.title p.body cfg.webhook_timeout_seconds) ∧
      (webhook_failure (env.webhook cfg.webhook_url p.title p.body cfg.webhook_timeout_seconds)
          = true →
        ∃ msg, (send_webhook cfg p env).effects =
          [Effect.httpPost cfg.webhook_url p.title p.body cfg.webhook_timeout_seconds,
            Effect.log (LogMsg.webhookFailed msg)])) := by
  refine ⟨send_webhook_exc cfg p env, alert_exc_webhook cfg r d t env, ?_, ?_⟩
  · intro hurl
    unfold send_webhook
    rw [if_pos hurl]
    exact ⟨rfl, rfl⟩
  · intro hurl
    unfold send_webhook webhook_failure
    rw [if_neg hurl]
    dsimp only
    cases hw : env.webhook cfg.webhook_url p.title p.body cfg.webhook_timeout_seconds with
    | transportError msg =>
        exact ⟨rfl, rfl, fun _ => ⟨msg, rfl⟩⟩
    | status code =>
        dsimp only
        by_cases hc : 400 ≤ code ∧ code < 600
        · rw [if_pos hc]
          exact ⟨rfl, rfl, fun _ => ⟨raiseForStatusMsg code cfg.webhook_url, rfl⟩⟩
        · rw [if_neg hc]
          refine ⟨rfl, rfl, ?_⟩
          intro hfail
          exact absurd (of_decide_eq_true hfail) hc

/-- Claim C7 witness: with the sample webhook configuration and an
environment answering HTTP 500, exactly one POST is attempted, dispatch
does not raise, and a failure warning is logged. -/
theorem c7_witness :
    (send_webhook cfgWebhook { title := "T", body := "B" } envHttp500).exc = Option.none ∧
    countPosts (send_webhook cfgWebhook { title := "T", body := "B" } envHttp500).effects = 1 ∧
    ∃ msg, (send_webhook cfgWebhook { title := "T", body := "B" } envHttp500).effects =
      [Effect.httpPost "http://x" "T" "B" 5, Effect.log (LogMsg.webhookFailed msg)] := by
  have h := c7_send_webhook cfgWebhook { title := "T", body := "B" } "r" Option.none Option.none
    envHttp500
  have h4 := h.2.2.2 (by decide)
  exact ⟨h.1, h4.1, h4.2.2 (by decide)⟩

/-- Claim C2: on a success event that completes normally, the latency
alert is dispatched iff an elapsed duration is available and meets the
threshold, the token alert iff a total-token count is available and
meets the threshold, and when both hold two separate dispatches occur,
latency first. -/
theorem c2_success_thresholds (cfg : AlertConfig) (m : List (String × ℚ)) (now : ℚ)
    (resp : PyVal) (rid : Option RunIdVal) (env : NetEnv) (tt : Option Int)
    (hx : extract_total_tokens resp = .ok tt)
    (hexc : (on_llm_end cfg m now resp rid env).exc = Option.none) :
    alertMarkers (on_llm_end cfg m now resp rid env).effects =
      (if latency_fires cfg (pop_duration m now (runIdKey rid)).1 then
        ["Latency threshold exceeded"] else []) ++
      (if tokens_fire cfg tt then ["Token threshold exceeded"] else []) ∧
    ("Latency threshold exceeded" ∈ alertMarkers (on_llm_end cfg m now resp rid env).effects ↔
      latency_fires cfg (pop_duration m now (runIdKey rid)).1 = true) ∧
    ("Token threshold exceeded" ∈ alertMarkers (on_llm_end cfg m now resp rid env).effects ↔
      tokens_fire cfg tt = true) ∧
    (latency_fires cfg (pop_duration m now (runIdKey rid)).1 = true →
      tokens_fire cfg tt = true →
      alertMarkers (on_llm_end cfg m now resp rid env).effects =
        ["Latency threshold exceeded", "Token threshold exceeded"]) := by
  have hne : ("Latency threshold exceeded" : String) ≠ "Token threshold exceeded" := by decide
  have hm : alertMarkers (on_llm_end cfg m now resp rid env).effects =
      (if latency_fires cfg (pop_duration m now (runIdKey rid)).1 then
        ["Latency threshold exceeded"] else []) ++
      (if tokens_fire cfg tt then ["Token threshold exceeded"] else []) := by
    rw [on_llm_end_effects cfg m now resp rid env tt hx hexc, alertMarkers_append]
    by_cases hl : latency_fires cfg (pop_duration m now (runIdKey rid)).1 <;>
      by_cases ht : tokens_fire cfg tt <;>
      simp [hl, ht, alertMarkers_alert, alertMarkers_nil]
  refine ⟨hm, ?_, ?_, ?_⟩
  · rw [hm]
    by_cases hl : latency_fires cfg (pop_duration m now (runIdKey rid)).1 <;>
      by_cases ht : tokens_fire cfg tt <;> simp [hl, ht, hne]
  · rw [hm]
    by_cases hl : latency_fires cfg (pop_duration m now (runIdKey rid)).1 <;>
      by_cases ht : tokens_fire cfg tt <;> simp [hl, ht, hne.symm]
  · intro hl ht
    rw [hm, if_pos hl, if_pos ht]
    rfl

/-- Claim C2 witness: a run started at 0 and ended at 3 against a
1-second threshold with 60 total tokens against a 50-token threshold
dispatches two separate alerts, latency first. -/
theorem c2_witness :
    alertMarkers (on_llm_end cfgLog [("r", (0 : ℚ))] 3
      (.obj [("llm_output", .dict [("token_usage", .dict [("total_tokens", .int 60)])])])
      (some (RunIdVal.vstr "r")) envOk).effects =
      ["Latency threshold exceeded", "Token threshold exceeded"] := by
  have hx : extract_total_tokens
      (.obj [("llm_output", .dict [("token_usage", .dict [("total_tokens", .int 60)])])]) =
      .ok (some 60) := rfl
  have hA : ∀ r d t, (alert cfgLog r d t envOk).exc = Option.none := fun r d t =>
    alert_exc_none cfgLog r d t envOk (fun h => absurd h (by decide))
  have hexc := on_llm_end_exc_none cfgLog [("r", (0 : ℚ))] 3
    (.obj [("llm_output", .dict [("token_usage", .dict [("total_tokens", .int 60)])])])
    (some (RunIdVal.vstr "r")) envOk (some 60) hx hA
  have h := c2_success_thresholds cfgLog [("r", (0 : ℚ))] 3
    (.obj [("llm_output", .dict [("token_usage", .dict [("total_tokens", .int 60)])])])
    (some (RunIdVal.vstr "r")) envOk (some 60) hx hexc
  exact h.2.2.2
    (by norm_num [latency_fires, pop_duration, assocFind, runIdKey, ridStr, cfgLog])
    (by decide)

/-- Claim C10: a start event whose `run_id` keyword is absent, `None` or
otherwise falsy records nothing — the start-time map is unchanged — and
an absent or falsy-string id keys later lookups on the empty string; a
later success event whose computed key has no entry obtains no elapsed
duration and dispatches no latency alert. -/
theorem c10_falsy_run_id (rid : Option RunIdVal) (hf : ridFalsy rid = true) :
    (∀ m now, (on_llm_start m now rid).start_times = m) ∧
    ((rid = Option.none ∨ ∃ s, rid = some (RunIdVal.vstr s)) → runIdKey rid = "") ∧
    (∀ (cfg : AlertConfig) (m : List (String × ℚ)) (now : ℚ) (resp : PyVal) (env : NetEnv),
      assocFind m (runIdKey rid) = Option.none →
      (pop_duration m now (runIdKey rid)).1 = Option.none ∧
      "Latency threshold exceeded" ∉
        alertMarkers (on_llm_end cfg m now resp rid env).effects) := by
  refine ⟨?_, ?_, ?_⟩
  · intro m now
    cases rid with
    | none => rfl
    | some v =>
        have hv : ridTruthy v = false := by simpa [ridFalsy] using hf
        simp [on_llm_start, hv]
  · rintro (h | ⟨s, h⟩) <;> subst h
    · rfl
    · have hs : s = "" := by simpa [ridFalsy, ridTruthy] using hf
      simp [runIdKey, ridStr, hs]
  · intro cfg m now resp env hfind
    have hd : (pop_duration m now (runIdKey rid)).1 = Option.none := by
      unfold pop_duration
      rw [hfind]
    refine ⟨hd, ?_⟩
    unfold on_llm_end
    dsimp only
    cases hx : extract_total_tokens resp with
    | error e => simp [alertMarkers]
    | ok tt =>
        rw [hd]
        dsimp only
        cases tt with
        | none => simp [alertMarkers]
        | some t =>
            dsimp only
            by_cases ht : cfg.token_threshold ≤ t
            · rw [if_pos ht]
              rw [List.nil_append, alertMarkers_alert]
              decide
            · rw [if_neg ht]
              simp [alertMarkers]

/-- Claim C10 witness: an absent `run_id` leaves the map unchanged and a
later success event on an empty map pops no duration and dispatches no
latency alert. -/
theorem c10_witness :
    (on_llm_start [("r", (0 : ℚ))] 1 Option.none).start_times = [("r", (0 : ℚ))] ∧
    runIdKey Option.none = "" ∧
    (pop_duration [] (3 : ℚ) (runIdKey Option.none)).1 = Option.none ∧
    "Latency threshold exceeded" ∉
      alertMarkers (on_llm_end cfgLog [] 3 (.obj []) Option.none envOk).effects := by
  have h := c10_falsy_run_id Option.none rfl
  have h3 := h.2.2 cfgLog [] 3 (.obj []) envOk rfl
  exact ⟨h.1 [("r", (0 : ℚ))] 1, h.2.1 (Or.inl rfl), h3.1, h3.2⟩

lemma step1_tokens_eq_truthy (r : PyVal) : step1_tokens r = step1_truthy r := by
  unfold step1_tokens step1_truthy
  dsimp only
  cases hv : getattrD r "llm_output" PyVal.none with
  | none => rfl
  | int n => by_cases h : truthy (PyVal.int n) <;> simp [pyOr, h] <;> rfl
  | str s => by_cases h : truthy (PyVal.str s) <;> simp [pyOr, h] <;> rfl
  | list l => by_cases h : truthy (PyVal.list l) <;> simp [pyOr, h] <;> rfl
  | obj a => by_cases h : truthy (PyVal.obj a) <;> simp [pyOr, h] <;> rfl
  | dict d =>
      rcases d with _ | ⟨⟨k0, v0⟩, rest⟩
      · rfl
      · have htr : truthy (PyVal.dict ((k0, v0) :: rest)) = true := by simp [truthy]
        simp only [pyOr, htr, if_true]
        by_cases htu : truthy (dictGet ((k0, v0) :: rest) "token_usage")
        · simp [pyOr, htu]
        · by_cases hus : truthy (dictGet ((k0, v0) :: rest) "usage")
          · simp [pyOr, htu, hus]
          · simp only [pyOr, htu, hus, if_false, Bool.false_eq_true]
            cases hu : dictGet ((k0, v0) :: rest) "usage" with
            | dict d2 =>
                rcases d2 with _ | ⟨p2, rest2⟩
                · rfl
                · rw [hu] at hus
                  simp [truthy] at hus
            | none => rfl
            | int n2 => rfl
            | str s2 => rfl
            | list l2 => rfl
            | obj a2 => rfl

/-- Claim C5 counterexample: with the token-usage sub-field present but
empty and the usage sub-field carrying an integer total, the code
returns the usage total (Python truthiness chaining), while the
first-PRESENT-wins strategy order of the claim would consult the empty
token-usage field and yield nothing. -/
theorem c5_counterexample :
    extract_total_tokens
      (.obj [("llm_output", .dict [("token_usage", .dict []),
        ("usage", .dict [("total_tokens", .int 7)])])]) = .ok (some 7) ∧
    extract_firstPresent
      (.obj [("llm_output", .dict [("token_usage", .dict []),
        ("usage", .dict [("total_tokens", .int 7)])])]) = .ok Option.none ∧
    extract_total_tokens
      (.obj [("llm_output", .dict [("token_usage", .dict []),
        ("usage", .dict [("total_tokens", .int 7)])])]) ≠
    extract_firstPresent
      (.obj [("llm_output", .dict [("token_usage", .dict []),
        ("usage", .dict [("total_tokens", .int 7)])])]) := by
  refine ⟨rfl, rfl, ?_⟩
  intro h
  have hcontra : (Except.ok (some 7) : Except String (Option Int)) = Except.ok Option.none := by
    calc (Except.ok (some 7) : Except String (Option Int))
        = extract_total_tokens
            (.obj [("llm_output", .dict [("token_usage", .dict []),
              ("usage", .dict [("total_tokens", .int 7)])])]) := rfl
      _ = extract_firstPresent
            (.obj [("llm_output", .dict [("token_usage", .dict []),
              ("usage", .dict [("total_tokens", .int 7)])])]) := h
      _ = Except.ok Option.none := rfl
  simp at hcontra

/-- Claim C5 as amended: for every response, the extraction of
`_extract_total_tokens` follows the fixed strategy order in which the
token-usage sub-field is consulted, then the usage sub-field, the first
TRUTHY one winning (present and non-empty, rather than merely present),
with its total accepted only when an integer, and the nested generations
scanned in iteration order only when step 1 yields nothing. -/
theorem c5_amended (r : PyVal) : extract_total_tokens r = extract_truthyOrder r := by
  unfold extract_total_tokens extract_truthyOrder
  rw [step1_tokens_eq_truthy]

lemma ain_of_assocFind {d : List (String × PyVal)} {k : String} {x : PyVal}
    (h : allIntsNonnegPairs d = true) (hf : assocFind d k = some x) :
    allIntsNonneg x = true := by
  induction d with
  | nil => exact absurd hf (by simp [assocFind])
  | cons kv rest ih =>
      obtain ⟨k', v⟩ := kv
      rw [allIntsNonnegPairs, Bool.and_eq_true] at h
      unfold assocFind at hf
      by_cases hk : k' = k
      · rw [if_pos hk] at hf
        cases hf
        exact h.1
      · rw [if_neg hk] at hf
        exact ih h.2 hf

lemma ain_getattrD (v : PyVal) (name : String) (dflt : PyVal)
    (hv : allIntsNonneg v = true) (hd : allIntsNonneg dflt = true) :
    allIntsNonneg (getattrD v name dflt) = true := by
  cases v with
  | obj a =>
      unfold getattrD
      dsimp only
      cases hf : assocFind a name with
      | some x => exact ain_of_assocFind hv hf
      | none => exact hd
  | none => exact hd
  | int n => exact hd
  | str s => exact hd
  | list l => exact hd
  | dict d => exact hd

lemma ain_dictGet (d : List (String × PyVal)) (k : String)
    (h : allIntsNonnegPairs d = true) : allIntsNonneg (dictGet d k) = true := by
  unfold dictGet
  cases hf : assocFind d k with
  | some v => exact ain_of_assocFind h hf
  | none => rfl

lemma ain_pyOr (a b : PyVal) (ha : allIntsNonneg a = true) (hb : allIntsNonneg b = true) :
    allIntsNonneg (pyOr a b) = true := by
  unfold pyOr
  split_ifs <;> assumption

lemma step1_nonneg (r : PyVal) (n : Int) (hr : allIntsNonneg r = true)
    (h : step1_tokens r = some n) : 0 ≤ n := by
  unfold step1_tokens at h
  dsimp only at h
  have h1 : allIntsNonneg (pyOr (getattrD r "llm_output" PyVal.none) (PyVal.dict [])) = true :=
    ain_pyOr _ _ (ain_getattrD r "llm_output" PyVal.none hr rfl) rfl
  cases hlo : pyOr (getattrD r "llm_output" PyVal.none) (PyVal.dict []) with
  | dict d =>
      rw [hlo] at h h1
      dsimp only at h
      have h2 : allIntsNonneg
          (pyOr (pyOr (dictGet d "token_usage") (dictGet d "usage")) (PyVal.dict [])) = true :=
        ain_pyOr _ _ (ain_pyOr _ _ (ain_dictGet d "token_usage" h1) (ain_dictGet d "usage" h1)) rfl
      cases hu : pyOr (pyOr (dictGet d "token_usage") (dictGet d "usage")) (PyVal.dict []) with
      | dict u =>
          rw [hu] at h h2
          dsimp only at h
          have h3 := ain_dictGet u "total_tokens" h2
          cases htt : dictGet u "total_tokens" with
          | int m =>
              rw [htt] at h h3
              cases h
              simpa [allIntsNonneg] using h3
          | none => rw [htt] at h; exact Option.noConfusion h
          | str s => rw [htt] at h; exact Option.noConfusion h
          | list l => rw [htt] at h; exact Option.noConfusion h
          | dict d2 => rw [htt] at h; exact Option.noConfusion h
          | obj a => rw [htt] at h; exact Option.noConfusion h
      | none => rw [hu] at h; exact Option.noConfusion h
      | int n2 => rw [hu] at h; exact Option.noConfusion h
      | str s2 => rw [hu] at h; exact Option.noConfusion h
      | list l2 => rw [hu] at h; exact Option.noConfusion h
      | obj a2 => rw [hu] at h; exact Option.noConfusion h
  | none => rw [hlo] at h; exact Option.noConfusion h
  | int n2 => rw [hlo] at h; exact Option.noConfusion h
  | str s2 => rw [hlo] at h; exact Option.noConfusion h
  | list l2 => rw [hlo] at h; exact Option.noConfusion h
  | obj a2 => rw [hlo] at h; exact Option.noConfusion h

lemma scanGeneration_nonneg (g : PyVal) (n : Int) (hg : allIntsNonneg g = true)
    (h : scanGeneration g = some n) : 0 ≤ n := by
  unfold scanGeneration at h
  dsimp only at h
  have hum : allIntsNonneg
      (getattrD (getattrD g "message" PyVal.none) "usage_metadata" PyVal.none) = true :=
    ain_getattrD _ _ _ (ain_getattrD g "message" PyVal.none hg rfl) rfl
  cases hu : getattrD (getattrD g "message" PyVal.none) "usage_metadata" PyVal.none with
  | dict u =>
      rw [hu] at h hum
      dsimp only at h
      have h3 := ain_dictGet u "total_tokens" hum
      cases htt : dictGet u "total_tokens" with
      | int m =>
          rw [htt] at h h3
          cases h
          simpa [allIntsNonneg] using h3
      | none => rw [htt] at h; exact Option.noConfusion h
      | str s => rw [htt] at h; exact Option.noConfusion h
      | list l => rw [htt] at h; exact Option.noConfusion h
      | dict d2 => rw [htt] at h; exact Option.noConfusion h
      | obj a => rw [htt] at h; exact Option.noConfusion h
  | none => rw [hu] at h; exact Option.noConfusion h
  | int n2 => rw [hu] at h; exact Option.noConfusion h
  | str s2 => rw [hu] at h; exact Option.noConfusion h
  | list l2 => rw [hu] at h; exact Option.noConfusion h
  | obj a2 => rw [hu] at h; exact Option.noConfusion h

lemma scanInner_nonneg (l : List PyVal) (n : Int) (hl : allIntsNonnegList l = true)
    (h : scanInner l = some n) : 0 ≤ n := by
  induction l with
  | nil => exact Option.noConfusion h
  | cons g rest ih =>
      rw [allIntsNonnegList, Bool.and_eq_true] at hl
      unfold scanInner at h
      cases hsg : scanGeneration g with
      | some m =>
          rw [hsg] at h
          cases h
          exact scanGeneration_nonneg g n hl.1 hsg
      | none =>
          rw [hsg] at h
          exact ih hl.2 h

lemma ainList_strs (cs : List Char) :
    allIntsNonnegList (cs.map fun c => PyVal.str (String.mk [c])) = true := by
  induction cs with
  | nil => rfl
  | cons c rest ih => simp [allIntsNonnegList, allIntsNonneg, ih]

lemma ainList_keys (d : List (String × PyVal)) :
    allIntsNonnegList (d.map fun kv => PyVal.str kv.1) = true := by
  induction d with
  | nil => rfl
  | cons kv rest ih => simp [allIntsNonnegList, allIntsNonneg, ih]

lemma ain_pyIter (v : PyVal) (l : List PyVal) (hv : allIntsNonneg v = true)
    (h : pyIter v = .ok l) : allIntsNonnegList l = true := by
  cases v with
  | list l0 =>
      cases h
      exact hv
  | str s =>
      cases h
      exact ainList_strs s.data
  | dict d =>
      cases h
      exact ainList_keys d
  | none => exact Except.noConfusion h
  | int n => exact Except.noConfusion h
  | obj a => exact Except.noConfusion h

lemma scanGroups_nonneg (gs : List PyVal) (n : Int) (hgs : allIntsNonnegList gs = true)
    (h : scanGroups gs = .ok (some n)) : 0 ≤ n := by
  induction gs with
  | nil =>
      unfold scanGroups at h
      cases h
  | cons g rest ih =>
      rw [allIntsNonnegList, Bool.and_eq_true] at hgs
      unfold scanGroups at h
      cases hit : pyIter g with
      | error e => rw [hit] at h; exact Except.noConfusion h
      | ok inner =>
          rw [hit] at h
          dsimp only at h
          cases hsi : scanInner inner with
          | some m =>
              rw [hsi] at h
              cases h
              exact scanInner_nonneg inner n (ain_pyIter g inner hgs.1 hit) hsi
          | none =>
              rw [hsi] at h
              exact ih hgs.2 h

/-- Claim C8 counterexample: `isinstance(total, int)` accepts negative
integers, so a response carrying a negative total-token count is
extracted as that negative value. -/
theorem c8_counterexample :
    extract_total_tokens
      (.obj [("llm_output", .dict [("token_usage", .dict [("total_tokens", .int (-5))])])]) =
      .ok (some (-5)) ∧ (-5 : Int) < 0 :=
  ⟨rfl, by decide⟩

/-- Claim C8 as amended: the extractor accepts any integer the response
carries, so the extracted value is nonnegative whenever every integer
occurring in the response is nonnegative (rather than unconditionally). -/
theorem c8_amended (r : PyVal) (n : Int) (hr : allIntsNonneg r = true)
    (h : extract_total_tokens r = .ok (some n)) : 0 ≤ n := by
  unfold extract_total_tokens at h
  cases hs1 : step1_tokens r with
  | some m =>
      rw [hs1] at h
      dsimp only at h
      cases h
      exact step1_nonneg r n hr hs1
  | none =>
      rw [hs1] at h
      dsimp only at h
      unfold extract_step2 at h
      dsimp only at h
      have hg : allIntsNonneg (pyOr (getattrD r "generations" PyVal.none) (PyVal.list [])) = true :=
        ain_pyOr _ _ (ain_getattrD r "generations" PyVal.none hr rfl) rfl
      cases hit : pyIter (pyOr (getattrD r "generations" PyVal.none) (PyVal.list [])) with
      | error e => rw [hit] at h; exact Except.noConfusion h
      | ok groups =>
          rw [hit] at h
          exact scanGroups_nonneg groups n (ain_pyIter _ groups hg hit) h

/-- Claim C8 witness: a response whose only integer is 12 extracts a
nonnegative total. -/
theorem c8_witness :
    allIntsNonneg
      (.obj [("llm_output", .dict [("usage", .dict [("total_tokens", .int 12)])])]) = true ∧
    (0 : Int) ≤ 12 :=
  ⟨rfl, c8_amended
    (.obj [("llm_output", .dict [("usage", .dict [("total_tokens", .int 12)])])]) 12 rfl rfl⟩

/-- Claim C1 counterexample: a failing SMTP transaction escapes
`_send_email` (no try/except there), so an error event in configured
smtp mode raises past the handler boundary; likewise a success event
whose truthy generations attribute is not iterable raises a TypeError
out of token extraction. -/
theorem c1_counterexample :
    (on_llm_error cfgSmtp [] 0 "boom" Option.none envSmtpFail).exc =
      some "SMTPServerDisconnected" ∧
    (on_llm_end cfgLog [] 0 (.obj [("generations", .int 1)]) Option.none envOk).exc =
      some "TypeError: object is not iterable" :=
  ⟨rfl, rfl⟩

/-- Claim C1 as amended: the handler entry points return without raising
provided that, when notify mode is smtp and SMTP is configured, the SMTP
transaction succeeds, and that token extraction on the success event's
response does not raise; webhook-channel failures are always caught at
their call site and converted to a log line. -/
theorem c1_amended (cfg : AlertConfig) (env : NetEnv) (m : List (String × ℚ)) (now : ℚ)
    (rid : Option RunIdVal) (e1 e2 : String) (resp : PyVal) (tt : Option Int)
    (hs : cfg.notify_mode = "smtp" → smtp_configured cfg = true →
      ∀ h p tls lg su fr rcpt bo, env.smtp h p tls lg su fr rcpt bo = SmtpResult.success)
    (hx : extract_total_tokens resp = .ok tt) :
    (on_llm_start m now rid).exc = Option.none ∧
    (on_llm_end cfg m now resp rid env).exc = Option.none ∧
    (on_llm_error cfg m now e1 rid env).exc = Option.none ∧
    (on_chain_error cfg m now e2 rid env).exc = Option.none := by
  have hA : ∀ r d t, (alert cfg r d t env).exc = Option.none := fun r d t =>
    alert_exc_none cfg r d t env hs
  refine ⟨?_, on_llm_end_exc_none cfg m now resp rid env tt hx hA, ?_, ?_⟩
  · cases rid with
    | none => rfl
    | some v =>
        unfold on_llm_start
        dsimp only
        split_ifs <;> rfl
  · exact hA ("LLM error: " ++ e1) (pop_duration m now (runIdKey rid)).1 Option.none
  · exact hA ("Chain error: " ++ e2) (pop_duration m now (runIdKey rid)).1 Option.none

/-- Claim C1 witness: in log mode, with a well-formed response, success
and error events return without raising. -/
theorem c1_witness :
    (on_llm_end cfgLog [] 0 (.obj []) Option.none envOk).exc = Option.none ∧
    (on_llm_error cfgLog [] 0 "x" Option.none envOk).exc = Option.none := by
  have h := c1_amended cfgLog envOk [] 0 Option.none "x" "x" (.obj []) Option.none
    (fun hmode => absurd hmode (by decide)) rfl
  exact ⟨h.2.1, h.2.2.1⟩

lemma scanGroups_total (gs : List PyVal) (h : ∀ g ∈ gs, ∃ l, pyIter g = .ok l) :
    ∃ o, scanGroups gs = .ok o := by
  induction gs with
  | nil => exact ⟨Option.none, rfl⟩
  | cons g rest ih =>
      obtain ⟨l, hl⟩ := h g (List.mem_cons_self g rest)
      unfold scanGroups
      rw [hl]
      dsimp only
      cases hsi : scanInner l with
      | some n => exact ⟨some n, rfl⟩
      | none =>
          obtain ⟨o, ho⟩ := ih fun g' hg' => h g' (List.mem_cons_of_mem g hg')
          exact ⟨o, ho⟩

/-- Claim C6 counterexample: a response with a truthy non-iterable
generations attribute has no recoverable token count, yet the extractor
raises a TypeError instead of returning none. -/
theorem c6_counterexample :
    extract_total_tokens (.obj [("generations", .obj [])]) =
      .error "TypeError: object is not iterable" ∧
    extract_total_tokens (.obj [("generations", .obj [])]) ≠ .ok Option.none :=
  ⟨rfl, fun h => Except.noConfusion h⟩

/-- Claim C6 as amended: for every response whose generations attribute,
after the empty-list default, iterates to groups that are themselves
iterable, the extractor never raises; and it returns none for the four
enumerated no-token shapes (empty response, non-integer total under
token-usage, empty generations sequence, generations with no usage
metadata anywhere).  A truthy non-iterable generations value raises
TypeError instead. -/
theorem c6_amended (r : PyVal) (gs : List PyVal)
    (h1 : pyIter (pyOr (getattrD r "generations" PyVal.none) (PyVal.list [])) = .ok gs)
    (h2 : ∀ g ∈ gs, ∃ l, pyIter g = .ok l) :
    (∃ o, extract_total_tokens r = .ok o) ∧
    extract_total_tokens (.obj []) = .ok Option.none ∧
    extract_total_tokens
      (.obj [("llm_output", .dict [("token_usage", .dict [("total_tokens", .str "42")])])]) =
      .ok Option.none ∧
    extract_total_tokens (.obj [("generations", .list [])]) = .ok Option.none ∧
    extract_total_tokens
      (.obj [("generations", .list [PyVal.list [PyVal.obj [("text", .str "hi")]]])]) =
      .ok Option.none := by
  refine ⟨?_, rfl, rfl, rfl, rfl⟩
  cases hs1 : step1_tokens r with
  | some n =>
      refine ⟨some n, ?_⟩
      unfold extract_total_tokens
      rw [hs1]
  | none =>
      obtain ⟨o, ho⟩ := scanGroups_total gs h2
      refine ⟨o, ?_⟩
      unfold extract_total_tokens extract_step2
      rw [hs1]
      dsimp only
      rw [h1]
      exact ho

/-- Claim C6 witness: a response with one empty generation group
extracts without raising. -/
theorem c6_witness :
    ∃ o, extract_total_tokens (.obj [("generations", .list [PyVal.list []])]) = .ok o := by
  have h := c6_amended (.obj [("generations", .list [PyVal.list []])]) [PyVal.list []] rfl
    (by
      intro g hg
      rw [List.mem_singleton] at hg
      subst hg
      exact ⟨[], rfl⟩)
  exact h.1

/-- Claim C7 counterexample: a final HTTP 303 answer is not a success,
yet `raise_for_status` does not reject it, so the code logs no warning
at all for it — the POST is the only effect. -/
theorem c7_counterexample :
    (send_webhook cfgWebhook { title := "T", body := "B" } env303).effects =
      [Effect.httpPost "http://x" "T" "B" 5] ∧
    ∀ msg, Effect.log (LogMsg.webhookFailed msg) ∉
      (send_webhook cfgWebhook { title := "T", body := "B" } env303).effects := by
  constructor
  · rfl
  · intro msg hmem
    rw [show (send_webhook cfgWebhook { title := "T", body := "B" } env303).effects =
      [Effect.httpPost "http://x" "T" "B" 5] from rfl] at hmem
    simp at hmem
